import Mathlib

/-!
Verification of the Potku entity model and settings-resolution engine.

Shallow embedding of the settings-cascade, derived-config generation,
cut-extraction and directory-scanning logic of `src/modules/measurement.py`,
`src/modules/sample.py` and `src/modules/simulation.py`.

Modelling conventions:
* Python objects referenced by identity (the Request's shared default
  Detector/Run/Target/Measurement objects) are represented by numeric
  object identifiers; reference equality is identifier equality.
* Dynamically typed attribute values are represented by the sum type `Val`.
* Python floats are modelled as exact rationals (`Rat`); the numeric
  literals of the source are carried over exactly.
* Fallible operations are modelled with `Option`/`Except`; a caught
  exception branch is the corresponding `Except.error`/fallback arm.
-/

namespace Potku

/-- A dynamically typed Python attribute value (string or number). -/
inductive Val where
  | str : String → Val
  | num : Rat → Val
  deriving DecidableEq, Repr

/-- The profile/depth/composition fields of a `Measurement`
(`src/modules/measurement.py`, constructor, lines 259-358), together with
the attributes that identify the object and its settings references.
`id` is the Python object identity; `detector`, `run`, `target` are
identities of the referenced settings objects. -/
structure Measurement where
  id : Nat
  name : String
  description : String
  detector : Nat
  run : Nat
  target : Nat
  use_default_profile_settings : Bool
  profile_name : Val
  profile_description : Val
  profile_modification_time : Val
  reference_density : Val
  number_of_depth_steps : Val
  depth_step_for_stopping : Val
  depth_step_for_output : Val
  depth_for_concentration_from : Val
  depth_for_concentration_to : Val
  channel_width : Val
  reference_cut : Val
  number_of_splits : Val
  normalization : Val
  deriving DecidableEq, Repr

/-- The Request scope as seen from a Measurement: the identities of the
shared default Detector/Run/Target objects and the stored default
Measurement (`request.default_measurement`, possibly `None`). -/
structure Request where
  default_detector : Nat
  default_run : Nat
  default_target : Nat
  default_measurement : Option Measurement
  deriving Repr

/-- Identity of the Measurement object returned as the `mesu` component of
`_get_used_settings`: `request.default_measurement` may be `None`, `self`
never is. -/
def Measurement.default_measurement_id (req : Request) : Option Nat :=
  req.default_measurement.map Measurement.id

/-- Embeds `Measurement._get_used_settings` (`src/modules/measurement.py`,
lines 1085-1096): if `use_default_profile_settings` is set, return the
Request's current default detector, run, target and measurement; otherwise
return the Measurement's own detector, run, target and itself. -/
def Measurement.get_used_settings (req : Request) (m : Measurement) :
    Nat × Nat × Nat × Option Measurement :=
  if m.use_default_profile_settings then
    (req.default_detector, req.default_run, req.default_target,
      req.default_measurement)
  else
    (m.detector, m.run, m.target, some m)

/-- Replacing the value of `use_default_profile_settings` on a Measurement
(toggling the flag between calls). -/
def Measurement.set_use_default (m : Measurement) (b : Bool) : Measurement :=
  { m with use_default_profile_settings := b }

/-- Embeds `Measurement._get_attrs` (`src/modules/measurement.py`,
lines 1239-1251): the fixed whitelist of attribute names settable through
`set_settings`. -/
def Measurement.get_attrs : List String :=
  ["profile_name", "profile_description",
   "profile_modification_time", "reference_density",
   "number_of_depth_steps", "depth_step_for_stopping",
   "depth_step_for_output", "depth_for_concentration_from",
   "depth_for_concentration_to", "channel_width", "number_of_splits",
   "normalization"]

/-- Python `setattr(self, key, value)` restricted to the attributes that
`set_settings` can name (all whitelist members); any other key leaves the
object unchanged. -/
def Measurement.setattr (m : Measurement) (key : String) (v : Val) :
    Measurement :=
  match key with
  | "profile_name" => { m with profile_name := v }
  | "profile_description" => { m with profile_description := v }
  | "profile_modification_time" => { m with profile_modification_time := v }
  | "reference_density" => { m with reference_density := v }
  | "number_of_depth_steps" => { m with number_of_depth_steps := v }
  | "depth_step_for_stopping" => { m with depth_step_for_stopping := v }
  | "depth_step_for_output" => { m with depth_step_for_output := v }
  | "depth_for_concentration_from" =>
      { m with depth_for_concentration_from := v }
  | "depth_for_concentration_to" => { m with depth_for_concentration_to := v }
  | "channel_width" => { m with channel_width := v }
  | "number_of_splits" => { m with number_of_splits := v }
  | "normalization" => { m with normalization := v }
  | _ => m

/-- Embeds `Measurement.set_settings` (`src/modules/measurement.py`,
lines 1260-1266): for each keyword argument in order, assign the attribute
when the key is in the `_get_attrs` whitelist, silently skip it otherwise. -/
def Measurement.set_settings (m : Measurement) :
    List (String × Val) → Measurement
  | [] => m
  | kv :: rest =>
      Measurement.set_settings
        (if kv.1 ∈ Measurement.get_attrs then m.setattr kv.1 kv.2 else m) rest

/-- The successfully parsed content of a `.profile` JSON file as read by
`Measurement.from_file` (`src/modules/measurement.py`, lines 488-508):
the `general` section fields, the `depth_profiles` section, the
`energy_spectra.channel_width` entry and the `composition_changes`
section; `use_default_settings` is stored as the literal string
`"True"`/`"False"`. -/
structure ProfileJson where
  name : Val
  description : Val
  modification_time_unix : Val
  number_of_depth_steps : Val
  depth_step_for_stopping : Val
  depth_step_for_output : Val
  depth_for_concentration_from : Val
  depth_for_concentration_to : Val
  channel_width : Val
  reference_cut : Val
  number_of_splits : Val
  normalization : Val
  reference_density : Val
  use_default_settings : String
  deriving DecidableEq, Repr

/-- The profile/depth/composition keyword arguments that the profile-file
stage of `Measurement.from_file` passes to the `Measurement` constructor. -/
structure ProfileFields where
  profile_name : Val
  profile_description : Val
  profile_modification_time : Val
  number_of_depth_steps : Val
  depth_step_for_stopping : Val
  depth_step_for_output : Val
  depth_for_concentration_from : Val
  depth_for_concentration_to : Val
  channel_width : Val
  reference_cut : Val
  number_of_splits : Val
  normalization : Val
  reference_density : Val
  deriving DecidableEq, Repr

/-- The constructor defaults of the profile fields
(`src/modules/measurement.py`, lines 259-272); `profile_modification_time`
defaults to the current clock value `now`. -/
def measurementProfileDefaults (now : Val) : ProfileFields where
  profile_name := .str "Default"
  profile_description := .str ""
  profile_modification_time := now
  number_of_depth_steps := .num 150
  depth_step_for_stopping := .num 10
  depth_step_for_output := .num 10
  depth_for_concentration_from := .num 200
  depth_for_concentration_to := .num 400
  channel_width := .num (1 / 40)
  reference_cut := .str ""
  number_of_splits := .num 10
  normalization := .str "First"
  reference_density := .num 3

/-- The profile fields of an existing Measurement, as copied from
`request.default_measurement` in the fallback branch of
`Measurement.from_file` (`src/modules/measurement.py`, lines 518-540). -/
def Measurement.profileFields (m : Measurement) : ProfileFields where
  profile_name := m.profile_name
  profile_description := m.profile_description
  profile_modification_time := m.profile_modification_time
  number_of_depth_steps := m.number_of_depth_steps
  depth_step_for_stopping := m.depth_step_for_stopping
  depth_step_for_output := m.depth_step_for_output
  depth_for_concentration_from := m.depth_for_concentration_from
  depth_for_concentration_to := m.depth_for_concentration_to
  channel_width := m.channel_width
  reference_cut := m.reference_cut
  number_of_splits := m.number_of_splits
  normalization := m.normalization
  reference_density := m.reference_density

/-- The error line logged by `Measurement.from_file` when the `.profile`
file cannot be read or parsed (`src/modules/measurement.py`,
lines 510-513). -/
def profileReadErrorLog : String :=
  "Failed to read settings from file"

/-- The profile-file stage of `Measurement.from_file`
(`src/modules/measurement.py`, lines 488-549).  `profile` is `some p` when
the `.profile` file was opened and parsed successfully and `none` when any
of `OSError`, `KeyError`, `AttributeError` or `json.JSONDecodeError` was
raised (missing or malformed file).  Returns the profile fields passed to
the constructor, the value of `use_default_profile_settings`, and the log
lines emitted.  The fallback branch copies every profile field from
`request.default_measurement` and forces the flag to `true`; when no
default measurement is stored, the constructor defaults apply (with the
flag again `true`).  The function is total: a malformed profile file never
fails the load. -/
def from_file_profile (req : Request) (now : Val)
    (profile : Option ProfileJson) : ProfileFields × Bool × List String :=
  match profile with
  | some p =>
      ({ profile_name := p.name
         profile_description := p.description
         profile_modification_time := p.modification_time_unix
         number_of_depth_steps := p.number_of_depth_steps
         depth_step_for_stopping := p.depth_step_for_stopping
         depth_step_for_output := p.depth_step_for_output
         depth_for_concentration_from := p.depth_for_concentration_from
         depth_for_concentration_to := p.depth_for_concentration_to
         channel_width := p.channel_width
         reference_cut := p.reference_cut
         number_of_splits := p.number_of_splits
         normalization := p.normalization
         reference_density := p.reference_density },
       p.use_default_settings == "True", [])
  | none =>
      match req.default_measurement with
      | none => (measurementProfileDefaults now, true, [profileReadErrorLog])
      | some d => (d.profileFields, true, [profileReadErrorLog])

/-- Python `"%02d" % n`: decimal rendering zero-padded to two digits. -/
def format02 (n : Int) : String :=
  if 0 ≤ n ∧ n < 10 then "0" ++ toString n else toString n

/-- The per-Sample state relevant to simulation creation
(`src/modules/sample.py`, lines 123-143 and 159-172): the sample's
directory name, the running serial counter for simulations (initially 1)
and the `Simulations.simulations` dict, modelled as an association list
from tab id to the `directory` attribute of the stored Simulation object
(`None` until `create_folder_structure` has run). -/
structure SampleSim where
  directory : String
  running_int_simulation : Int
  simulations : List (Int × Option String)
  deriving DecidableEq, Repr

/-- Embeds `Sample.increase_running_int_simulation_by_1`
(`src/modules/sample.py`, lines 168-172). -/
def SampleSim.increase_running_int_simulation_by_1 (s : SampleSim) :
    SampleSim :=
  { s with running_int_simulation := s.running_int_simulation + 1 }

/-- Points at which the `try` block of `Simulations.add_simulation_file`
can raise: nowhere, at the `Simulation(...)` constructor call, or at
`create_folder_structure` (an `OSError` from `mkdir`). -/
inductive SimFailure where
  | ok
  | duringConstruction
  | duringFolderCreation
  deriving DecidableEq, Repr

/-- Assignment `d[k] = v` on an association list (update in place or
append). -/
def dictSet (d : List (Int × Option String)) (k : Int) (v : Option String) :
    List (Int × Option String) :=
  if d.any (fun kv => kv.1 == k) then
    d.map (fun kv => if kv.1 == k then (k, v) else kv)
  else
    d ++ [(k, v)]

/-- Embeds `Simulations.add_simulation_file` (`src/modules/simulation.py`,
lines 57-88), restricted to one sample's state.  The simulation folder
name is built from the current counter value, then the counter is
incremented *unconditionally*; only afterwards does the duplicate check
(`directory == simulation_name` over the stored simulations) run and the
Simulation get constructed and registered.  On a duplicate, or when the
constructor raises (caught by the bare `except`), the function returns
`None` with the dict unchanged; when `create_folder_structure` raises
after the constructor, the constructed object (with its `directory`
already set) is returned but never registered in the dict.  Returns the
new sample state and the `directory` attribute of the returned Simulation
(`none` models a `None` return). -/
def add_simulation_file (s : SampleSim) (simulation_name : String)
    (tab_id : Int) (failure : SimFailure) :
    SampleSim × Option (Option String) :=
  let simulation_folder :=
    s.directory ++ "/" ++ "MC_simulation_" ++
      format02 s.running_int_simulation ++ "-" ++ simulation_name
  let s1 := s.increase_running_int_simulation_by_1
  if s1.simulations.any (fun kv => kv.2 == some simulation_name) then
    (s1, none)
  else
    match failure with
    | .duringConstruction => (s1, none)
    | .duringFolderCreation => (s1, some (some simulation_folder))
    | .ok =>
        ({ s1 with
            simulations :=
              dictSet s1.simulations tab_id (some simulation_folder) },
          some (some simulation_folder))

/-- Byte-for-byte prefix test on character lists (`str.startswith`). -/
def isPrefixChars : List Char → List Char → Bool
  | [], _ => true
  | _ :: _, [] => false
  | c :: cs, d :: ds => c == d && isPrefixChars cs ds

/-- Suffix test on character lists (`str.endswith`). -/
def isSuffixChars (suffix l : List Char) : Bool :=
  isPrefixChars suffix.reverse l.reverse

/-- Python string comparison: lexicographic by code points, a proper
prefix sorting first. -/
def strLE (a b : List Char) : Bool :=
  match a, b with
  | [], _ => true
  | _ :: _, [] => false
  | c :: cs, d :: ds =>
      if c < d then true else if d < c then false else strLE cs ds

/-- Parse a nonempty all-digit character list as a natural number. -/
def parseDigits (cs : List Char) : Option Nat :=
  if cs.isEmpty || !cs.all Char.isDigit then none
  else some (cs.foldl (fun a c => 10 * a + (c.toNat - 48)) 0)

/-- Python `int(str)` on the two-character serial field: an optional sign
followed by digits; anything else raises `ValueError`, modelled as
`none`. -/
def pyInt (cs : List Char) : Option Int :=
  match cs with
  | '-' :: rest => (parseDigits rest).map (fun n => -(n : Int))
  | '+' :: rest => (parseDigits rest).map (fun n => (n : Int))
  | _ => (parseDigits cs).map (fun n => (n : Int))

/-- A child entry of the sample directory: its name and the names of the
files it contains (in `os.listdir` order). -/
structure ChildDir where
  dname : String
  files : List String
  deriving DecidableEq, Repr

/-- Stable insertion into a list sorted by `strLE` on names. -/
def insertByName (d : ChildDir) : List ChildDir → List ChildDir
  | [] => [d]
  | e :: es =>
      if strLE d.dname.data e.dname.data then d :: e :: es
      else e :: insertByName d es

/-- Python `all_dirs.sort()`: a stable sort of the directory entries by name in
Python string order (`src/modules/sample.py`, line 185). -/
def sortDirs : List ChildDir → List ChildDir
  | [] => []
  | d :: ds => insertByName d (sortDirs ds)

/-- The serial number parsed from a child directory name: `some n` when
the name starts with `pre` and its fixed-width field
`name[len(pre):len(pre)+2]` parses as an integer; `none` when the prefix
does not match or `int()` raises `ValueError` (the entry is skipped). -/
def matchedSerial (pre : String) (d : ChildDir) : Option Int :=
  if isPrefixChars pre.data d.dname.data then
    pyInt ((d.dname.data.drop pre.data.length).take 2)
  else none

/-- One iteration of the directory loop of `Sample.get_measurements_files`
/ `get_simulation_files` (`src/modules/sample.py`, lines 187-203 and
222-238): on a matching, parseable entry, assign the running counter and
append the contained files with extension `ext`; otherwise leave the state
untouched. -/
def scanStep (pre ext : String) (st : Int × List String) (d : ChildDir) :
    Int × List String :=
  match matchedSerial pre d with
  | none => st
  | some n =>
      (n, st.2 ++ (d.files.filter (fun f => isSuffixChars ext.data f.data)
        |>.map (fun f => d.dname ++ "/" ++ f)))

/-- The serial parsed from the last matching directory of the sorted
listing, if any. -/
def lastMatchedSerial (pre : String) (dirs : List ChildDir) : Option Int :=
  (dirs.filterMap (matchedSerial pre)).getLast?

/-- The files with extension `ext` collected from the matching directories
of the listing, in listing order. -/
def collectedFiles (pre ext : String) (dirs : List ChildDir) : List String :=
  dirs.flatMap (fun d =>
    if (matchedSerial pre d).isSome then
      (d.files.filter (fun f => isSuffixChars ext.data f.data)).map
        (fun f => d.dname ++ "/" ++ f)
    else [])

/-- The shared body of `Sample.get_measurements_files` and
`Sample.get_simulation_files` (`src/modules/sample.py`, lines 174-243):
sort the child directory names, run the scanning loop starting from the
current running counter, and increment the resulting counter by one only
when at least one file was collected.  Returns the new running counter
and the collected file paths. -/
def scanSampleDir (pre ext : String) (running : Int)
    (dirs : List ChildDir) : Int × List String :=
  let res := (sortDirs dirs).foldl (scanStep pre ext) (running, [])
  (if res.2.isEmpty then res.1 else res.1 + 1, res.2)

/-- Embeds `Sample.get_measurements_files` (`src/modules/sample.py`,
lines 174-208): scan for `Measurement_NN-name` children and their `.info`
files, updating `_running_int_measurement`. -/
def get_measurements_files (running : Int) (dirs : List ChildDir) :
    Int × List String :=
  scanSampleDir "Measurement_" ".info" running dirs

/-- Embeds `Sample.get_simulation_files` (`src/modules/sample.py`,
lines 210-243): scan for simulation children and their `.simulation`
files, updating `_running_int_simulation`.  The class attribute
`Simulation.DIRECTORY_PREFIX` is not defined in the bundled
`simulation.py`; its value is mirrored from `MC_simulation_` used at
`src/modules/simulation.py` line 69 and the spec's directory layout
`MC_simulation_NN-<name>`. -/
def get_simulation_files (running : Int) (dirs : List ChildDir) :
    Int × List String :=
  scanSampleDir "MC_simulation_" ".simulation" running dirs

/-- One layer of a detector foil: thickness (nm) and density (g/cm³). -/
structure Layer where
  thickness : Rat
  density : Rat
  deriving DecidableEq, Repr, Inhabited

/-- A detector foil: its z-position (`distance`) and its layers. -/
structure Foil where
  distance : Rat
  layers : List Layer
  deriving DecidableEq, Repr, Inhabited

/-- The detector attributes read by `Measurement.generate_tof_in`:
`detector_theta`, the foil list, the indices of the time-of-flight foils,
the TOF/angle calibration coefficients and the efficiency directory. -/
structure DetectorS where
  detector_theta : Rat
  foils : List Foil
  tof_foils : List Nat
  tof_slope : Rat
  tof_offset : Rat
  angle_slope : Rat
  angle_offset : Rat
  eff_directory : String
  deriving DecidableEq, Repr

/-- The beam attributes read by `generate_tof_in` (`run.beam`). -/
structure BeamS where
  ion : String
  energy : Rat
  deriving DecidableEq, Repr

/-- The run attributes read by `generate_tof_in`. -/
structure RunS where
  beam : BeamS
  deriving DecidableEq, Repr

/-- The target attributes read by `generate_tof_in`. -/
structure TargetS where
  target_theta : Rat
  deriving DecidableEq, Repr

/-- The resolved inputs of `Measurement.generate_tof_in`
(`src/modules/measurement.py`, lines 1122-1190): the settings returned by
`_get_used_settings` plus the Request's global settings
(`get_cross_sections`, `get_num_iterations`). -/
structure TofSettings where
  detector : DetectorS
  run : RunS
  target : TargetS
  reference_density : Rat
  number_of_depth_steps : Rat
  depth_step_for_stopping : Rat
  depth_step_for_output : Rat
  depth_for_concentration_from : Rat
  depth_for_concentration_to : Rat
  cross_sections : Int
  num_iterations : Int
  deriving DecidableEq, Repr

/-- Evaluates `detector.foils[detector.tof_foils[k]].distance` with total indexing
(the theorems only instantiate it within bounds, where Python would not
raise `IndexError`). -/
def foilDistance (det : DetectorS) (k : Nat) : Rat :=
  (det.foils.getD (det.tof_foils.getD k 0) default).distance

/-- The `while i - 1 >= 0` loop of `generate_tof_in`
(`src/modules/measurement.py`, lines 1139-1145): starting from
`i = len(tof_foils) - 1`, each iteration overwrites the running value with
`foils[tof_foils[i]].distance - foils[tof_foils[i-1]].distance` and
decrements `i`; the loop exits when `i` reaches 0. -/
def tofLengthLoop (det : DetectorS) : Nat → Rat → Rat
  | 0, tl => tl
  | i + 1, _ => tofLengthLoop det i (foilDistance det (i + 1) - foilDistance det i)

/-- The time-of-flight path length written to `tof.in`
(`src/modules/measurement.py`, lines 1138-1147): the loop result, started
at 0, divided by 1000. -/
def timeOfFlightLength (det : DetectorS) : Rat :=
  tofLengthLoop det (det.tof_foils.length - 1) 0 / 1000

/-- The carbon foil thickness written to `tof.in`
(`src/modules/measurement.py`, lines 1150-1165): 0 when `no_foil` is set;
otherwise the first layer of the first time-of-flight foil converted from
nm·(g/cm³) to areal density with the source's constants `6.0221409e+23`
and `1.660548782e-27` and the factor 100. -/
def carbonFoilThickness (no_foil : Bool) (det : DetectorS) : Rat :=
  if no_foil then 0
  else
    let layer :=
      (det.foils.getD (det.tof_foils.getD 0 0) default).layers.getD 0 default
    layer.thickness * layer.density * (60221409 * 10 ^ 16) *
      (1660548782 / 10 ^ 36) * 100

/-- The line-oriented `tof.in` text block assembled by `generate_tof_in`
(`src/modules/measurement.py`, lines 1133-1203), modelled as the list of
its lines, each a key string paired with the rendered values (Python's
rendering of distinct numbers/strings is injective, so fingerprint
equality of the text is equality of this list). -/
def tofInText (no_foil : Bool) (s : TofSettings) : List (String × List Val) :=
  [("Beam", [.str s.run.beam.ion]),
   ("Energy", [.num s.run.beam.energy]),
   ("Detector angle", [.num s.detector.detector_theta]),
   ("Target angle", [.num s.target.target_theta]),
   ("Toflen", [.num (timeOfFlightLength s.detector)]),
   ("Carbon foil thickness", [.num (carbonFoilThickness no_foil s.detector)]),
   ("Target density", [.num s.reference_density]),
   ("TOF calibration",
     [.num s.detector.tof_slope, .num s.detector.tof_offset]),
   ("Angle calibration",
     [.num s.detector.angle_slope, .num s.detector.angle_offset]),
   ("Number of depth steps", [.num s.number_of_depth_steps]),
   ("Depth step for stopping", [.num s.depth_step_for_stopping]),
   ("Depth step for output", [.num s.depth_step_for_output]),
   ("Depths for concentration scaling",
     [.num s.depth_for_concentration_from,
      .num s.depth_for_concentration_to]),
   ("Cross section", [.num (s.cross_sections : Rat)]),
   ("Number of iterations", [.num (s.num_iterations : Rat)]),
   ("Efficiency directory", [.str s.detector.eff_directory])]

/-- The files of the `tof_in` directory: the current `tof.in` content (if
the file exists) and the contents of the timestamped `.bak` backups in
creation order. -/
structure TofFS where
  tof_in : Option (List (String × List Val))
  baks : List (List (String × List Val))
  deriving DecidableEq

/-- The fingerprint-compare-backup-write step of
`Measurement.generate_tof_in` (`src/modules/measurement.py`,
lines 1205-1237): the MD5 digest of the assembled text is compared with
the digest of the existing file (`None` when reading raises `OSError`);
identical digests mean no write at all; otherwise the old file is copied
to a timestamped `.bak` (a missing source file is tolerated) and the new
text is written.  Digests are modelled by the texts themselves: `gf
.md5_for_file` is repository code outside the bundle and, per the spec, a
content fingerprint used purely for change detection, so fingerprint
equality is content equality. -/
def generate_tof_in (no_foil : Bool) (s : TofSettings) (fs : TofFS) :
    TofFS :=
  let text := tofInText no_foil s
  if fs.tof_in = some text then fs
  else
    { tof_in := some text
      baks :=
        match fs.tof_in with
        | some old => fs.baks ++ [old]
        | none => fs.baks }

/-- The resolved numeric fields serialized into `tof.in`. -/
inductive NumField where
  | beamEnergy
  | detectorTheta
  | targetTheta
  | referenceDensity
  | numberOfDepthSteps
  | depthStepForStopping
  | depthStepForOutput
  | depthForConcentrationFrom
  | depthForConcentrationTo
  | tofSlope
  | tofOffset
  | angleSlope
  | angleOffset
  deriving DecidableEq, Repr

/-- Read one resolved numeric field. -/
def numFieldGet (s : TofSettings) : NumField → Rat
  | .beamEnergy => s.run.beam.energy
  | .detectorTheta => s.detector.detector_theta
  | .targetTheta => s.target.target_theta
  | .referenceDensity => s.reference_density
  | .numberOfDepthSteps => s.number_of_depth_steps
  | .depthStepForStopping => s.depth_step_for_stopping
  | .depthStepForOutput => s.depth_step_for_output
  | .depthForConcentrationFrom => s.depth_for_concentration_from
  | .depthForConcentrationTo => s.depth_for_concentration_to
  | .tofSlope => s.detector.tof_slope
  | .tofOffset => s.detector.tof_offset
  | .angleSlope => s.detector.angle_slope
  | .angleOffset => s.detector.angle_offset

/-- Replace one resolved numeric field. -/
def numFieldSet (s : TofSettings) (f : NumField) (v : Rat) : TofSettings :=
  match f with
  | .beamEnergy =>
      { s with run := { s.run with beam := { s.run.beam with energy := v } } }
  | .detectorTheta => { s with detector := { s.detector with detector_theta := v } }
  | .targetTheta => { s with target := { s.target with target_theta := v } }
  | .referenceDensity => { s with reference_density := v }
  | .numberOfDepthSteps => { s with number_of_depth_steps := v }
  | .depthStepForStopping => { s with depth_step_for_stopping := v }
  | .depthStepForOutput => { s with depth_step_for_output := v }
  | .depthForConcentrationFrom => { s with depth_for_concentration_from := v }
  | .depthForConcentrationTo => { s with depth_for_concentration_to := v }
  | .tofSlope => { s with detector := { s.detector with tof_slope := v } }
  | .tofOffset => { s with detector := { s.detector with tof_offset := v } }
  | .angleSlope => { s with detector := { s.detector with angle_slope := v } }
  | .angleOffset => { s with detector := { s.detector with angle_offset := v } }

/-- A selection, as used by `save_cuts`: the matplotlib polygon-containment
test over its closed point list, an external collaborator, is abstracted
to the boolean membership predicate it computes on a raw point. -/
def Selection : Type := Int × Int → Bool

/-- The index row produced by
`np.where(polygon.contains_points(np.transpose(self.data)) == True)`
(`src/modules/measurement.py`, lines 1024-1028): the 0-based indices of
the raw points testing positive, in event order. -/
def whereIndices (sel : Selection) (data : List (Int × Int)) : List Nat :=
  (data.enum.filter (fun ip => sel ip.2)).map (fun ip => ip.1)

/-- The `points_in_selection` triple list
(`src/modules/measurement.py`, lines 1031-1037): for every index in the
`np.where` row, the triple `(data[0, index], data[1, index], index + 1)` —
x, y and the 1-based event number, in event order. -/
def pointsInSelection (sel : Selection) (data : List (Int × Int)) :
    List (Int × Int × Nat) :=
  (data.enum.filter (fun ip => sel ip.2)).map
    (fun ip => (ip.2.1, ip.2.2, ip.1 + 1))

/-- Content of a persisted cut file.  Modelled from the spec: `CutFile`
(`modules/cut_file.py`, not in the bundle) persists via `save()` exactly
the data list passed to its `set_info(selection, data)`; per the spec a
cut file is "a named, persisted subset of (x, y, event-index) triples".
The data actually passed on the saved object may be either the triple
list or the raw `np.where` index row, so both shapes are represented. -/
inductive CutData where
  | triples : List (Int × Int × Nat) → CutData
  | indices : List Nat → CutData
  deriving DecidableEq, Repr

/-- The cut file saved for one selection by the loop of `save_cuts`
(`src/modules/measurement.py`, lines 1020-1044): nothing when no raw
point tests positive (`if len(points[0])`), otherwise the content given
to the `CutFile` that is actually saved — the second one constructed,
whose `set_info` receives `points`, the `np.where` index row, while the
first `CutFile` carrying the `points_in_selection` triples is dropped. -/
def savedCutForSelection (sel : Selection) (data : List (Int × Int)) :
    Option CutData :=
  let idxs := whereIndices sel data
  if idxs.isEmpty then none else some (.indices idxs)

/-- The cut-related files of a measurement: the `.cut` files of the
`Data/Cuts` directory, the `.cut` files of the
`Composition_changes/Changes` directory, and whether the
`<name>.selections` file exists. -/
structure CutFS where
  cuts : List CutData
  changes : List CutData
  selections_file : Bool
  deriving DecidableEq, Repr

/-- Embeds `Measurement.__remove_old_cut_files` (`src/modules/measurement.py`,
lines 1050-1054).  Modelled from the spec: `gf.remove_matching_files(dir,
exts={".cut"})` (repository code outside the bundle) removes every `.cut`
file of the given directory. -/
def removeOldCutFiles (fs : CutFS) : CutFS :=
  { fs with cuts := [], changes := [] }

/-- Embeds `Measurement.save_cuts` (`src/modules/measurement.py`,
lines 1002-1048).  With an empty selector: remove all old cut files and
the `.selections` file, return 0.  Otherwise: remove all old cut files
first, then write one cut file per selection with at least one contained
point.  Modelled from the spec: `gf.remove_files(selection_file)`
(repository code outside the bundle) deletes the given file.  The second
component is the Python return value (`some 0` for the explicit
`return 0`, `none` for falling off the end). -/
def save_cuts (sels : List Selection) (data : List (Int × Int))
    (fs : CutFS) : CutFS × Option Nat :=
  if sels.isEmpty then
    ({ removeOldCutFiles fs with selections_file := false }, some 0)
  else
    let fs1 := removeOldCutFiles fs
    ({ fs1 with cuts := sels.filterMap (savedCutForSelection · data) }, none)

/-- Value of `np.iinfo(np.uint16).max`. -/
def uint16Max : Int := 65535

/-- The message of the `ValueError` raised by `Measurement.load_data`
when the observed maximum exceeds the 16-bit storage range
(`src/modules/measurement.py`, lines 816-818). -/
def rangeErrorMsg (maxValue : Int) : String :=
  "\x27" ++ toString maxValue ++ "\x27 was too big for an array of type uint16"

/-- The `except Exception` log line of `load_data`
(`src/modules/measurement.py`, lines 834-836). -/
def unexpectedErrorLog (e : String) : String :=
  "Unexpected error: " ++ e

/-- Computes `int_array.max()` over the two-row array: `none` models the
`ValueError` numpy raises on an empty array. -/
def arrayMax (rows : List (Int × Int)) : Option Int :=
  (rows.map (fun p => max p.1 p.2)).max?

/-- The body of the `.asc` branch of `Measurement.load_data`
(`src/modules/measurement.py`, lines 799-824) after the integer parse of
each line: compute the array maximum, raise `ValueError` when it exceeds
the `np.uint16` range, otherwise downcast with `astype(np.uint16)`
(numpy wraps values modulo 2^16) and store the array. -/
def loadDataBody (rows : List (Int × Int)) :
    Except String (List (Int × Int)) :=
  match arrayMax rows with
  | none => .error "zero-size array to reduction operation"
  | some maxValue =>
      if uint16Max < maxValue then .error (rangeErrorMsg maxValue)
      else .ok (rows.map (fun p => (p.1 % 65536, p.2 % 65536)))

/-- The observable outcome of a `load_data` call: the value of
`self.data` if it was assigned, and the error log lines emitted. -/
structure LoadOutcome where
  data : Option (List (Int × Int))
  logs : List String
  deriving DecidableEq, Repr

/-- Embeds `Measurement.load_data` on an `.asc` file
(`src/modules/measurement.py`, lines 781-836): the whole body runs under
`try`, and the trailing `except Exception` clause catches any raised
`ValueError`, logs it and falls through — so the call always returns
normally (`Except.error` would model an exception escaping to the
caller, which never happens). -/
def load_data_asc (rows : List (Int × Int)) : Except String LoadOutcome :=
  match loadDataBody rows with
  | .ok arr => .ok { data := some arr, logs := [] }
  | .error e => .ok { data := none, logs := [unexpectedErrorLog e] }

/-- A concrete Measurement used to instantiate the theorems (its field
values are the constructor defaults of `src/modules/measurement.py`,
lines 259-272). -/
def exMeasurement : Measurement where
  id := 7
  name := "Default"
  description := ""
  detector := 10
  run := 11
  target := 12
  use_default_profile_settings := false
  profile_name := .str "Default"
  profile_description := .str ""
  profile_modification_time := .num 100
  reference_density := .num 3
  number_of_depth_steps := .num 150
  depth_step_for_stopping := .num 10
  depth_step_for_output := .num 10
  depth_for_concentration_from := .num 200
  depth_for_concentration_to := .num 400
  channel_width := .num (1 / 40)
  reference_cut := .str ""
  number_of_splits := .num 10
  normalization := .str "First"

/-- A concrete Request whose stored default measurement is
`exMeasurement`. -/
def exRequest : Request where
  default_detector := 1
  default_run := 2
  default_target := 3
  default_measurement := some exMeasurement

/-- The containment test of the square selection
`[(0,0),(0,10),(10,10),(10,0)]` of the spec's extraction example. -/
def exSquareSelection : Selection := fun p =>
  decide (0 ≤ p.1 ∧ p.1 ≤ 10 ∧ 0 ≤ p.2 ∧ p.2 ≤ 10)

/-- A concrete detector with three time-of-flight foils at z-positions 0,
5 and 100. -/
def exDetectorThreeTof : DetectorS where
  detector_theta := 41
  foils := [⟨0, [⟨(13 : Rat) / 1000, 2⟩]⟩, ⟨5, []⟩, ⟨100, []⟩]
  tof_foils := [0, 1, 2]
  tof_slope := 1
  tof_offset := 0
  angle_slope := 1
  angle_offset := 0
  eff_directory := "eff"

/-- A concrete resolved settings record for `generate_tof_in`. -/
def exTofSettings : TofSettings where
  detector := exDetectorThreeTof
  run := { beam := { ion := "35Cl", energy := 85 } }
  target := { target_theta := 201 }
  reference_density := 3
  number_of_depth_steps := 150
  depth_step_for_stopping := 10
  depth_step_for_output := 10
  depth_for_concentration_from := 200
  depth_for_concentration_to := 400
  cross_sections := 1
  num_iterations := 4

/-- Frame property: `setattr` on whitelist keys never touches the identity,
name, description, settings references, `use_default_profile_settings` or
`reference_cut` of a Measurement. -/
theorem Measurement.setattr_frame (m : Measurement) (key : String) (v : Val) :
    (m.setattr key v).id = m.id ∧
    (m.setattr key v).name = m.name ∧
    (m.setattr key v).description = m.description ∧
    (m.setattr key v).detector = m.detector ∧
    (m.setattr key v).run = m.run ∧
    (m.setattr key v).target = m.target ∧
    (m.setattr key v).use_default_profile_settings =
      m.use_default_profile_settings ∧
    (m.setattr key v).reference_cut = m.reference_cut := by
  unfold Measurement.setattr
  split <;> simp

/-- Frame property: `set_settings` never touches the identity, name, description, settings
references, `use_default_profile_settings` or `reference_cut`. -/
theorem Measurement.set_settings_frame (kwargs : List (String × Val))
    (m : Measurement) :
    (m.set_settings kwargs).id = m.id ∧
    (m.set_settings kwargs).name = m.name ∧
    (m.set_settings kwargs).description = m.description ∧
    (m.set_settings kwargs).detector = m.detector ∧
    (m.set_settings kwargs).run = m.run ∧
    (m.set_settings kwargs).target = m.target ∧
    (m.set_settings kwargs).use_default_profile_settings =
      m.use_default_profile_settings ∧
    (m.set_settings kwargs).reference_cut = m.reference_cut := by
  induction kwargs generalizing m with
  | nil => simp [Measurement.set_settings]
  | cons kv rest ih =>
      simp only [Measurement.set_settings]
      split
      · obtain ⟨h1, h2, h3, h4, h5, h6, h7, h8⟩ :=
          ih (m.setattr kv.1 kv.2)
        obtain ⟨g1, g2, g3, g4, g5, g6, g7, g8⟩ :=
          Measurement.setattr_frame m kv.1 kv.2
        exact ⟨h1.trans g1, h2.trans g2, h3.trans g3, h4.trans g4,
          h5.trans g5, h6.trans g6, h7.trans g7, h8.trans g8⟩
      · exact ih m

/-- Keys outside the whitelist are silently dropped: `set_settings` behaves
exactly as if the keyword dictionary had been filtered to whitelist keys. -/
theorem Measurement.set_settings_filter (kwargs : List (String × Val))
    (m : Measurement) :
    m.set_settings kwargs =
      m.set_settings
        (kwargs.filter (fun kv => kv.1 ∈ Measurement.get_attrs)) := by
  induction kwargs generalizing m with
  | nil => rfl
  | cons kv rest ih =>
      by_cases h : kv.1 ∈ Measurement.get_attrs <;>
        simp [Measurement.set_settings, List.filter_cons, h, ih]

end Potku

/-- C10: `set_settings` assigns only the attributes of the fixed whitelist
returned by `_get_attrs`; `name`, `detector`, `run`, `target`,
`use_default_profile_settings` (and `id`, `description`, `reference_cut`)
are left unchanged for every keyword dictionary, and keys outside the
whitelist are silently ignored rather than raising. -/
theorem c10_set_settings_whitelist_frame (m : Potku.Measurement)
    (kwargs : List (String × Potku.Val)) :
    Potku.Measurement.get_attrs =
      ["profile_name", "profile_description",
       "profile_modification_time", "reference_density",
       "number_of_depth_steps", "depth_step_for_stopping",
       "depth_step_for_output", "depth_for_concentration_from",
       "depth_for_concentration_to", "channel_width", "number_of_splits",
       "normalization"] ∧
    (m.set_settings kwargs).id = m.id ∧
    (m.set_settings kwargs).name = m.name ∧
    (m.set_settings kwargs).detector = m.detector ∧
    (m.set_settings kwargs).run = m.run ∧
    (m.set_settings kwargs).target = m.target ∧
    (m.set_settings kwargs).use_default_profile_settings =
      m.use_default_profile_settings ∧
    m.set_settings kwargs =
      m.set_settings
        (kwargs.filter (fun kv => kv.1 ∈ Potku.Measurement.get_attrs)) := by
  obtain ⟨h1, h2, h3, h4, h5, h6, h7, h8⟩ :=
    Potku.Measurement.set_settings_frame kwargs m
  exact ⟨rfl, h1, h2, h4, h5, h6, h7,
    Potku.Measurement.set_settings_filter kwargs m⟩

/-- C1: `_get_used_settings` returns exactly the Request's current default
detector/run/target/measurement identities when `use_default_profile_settings`
is true and the Measurement's own detector/run/target and itself when the
flag is false; the result is a pure function of the current flag and the
current Request defaults, so toggling the flag (or changing a default) is
reflected immediately on the next call. -/
theorem c1_get_used_settings_resolution (req : Potku.Request)
    (m : Potku.Measurement) :
    (Potku.Measurement.get_used_settings req m =
      if m.use_default_profile_settings then
        (req.default_detector, req.default_run, req.default_target,
          req.default_measurement)
      else
        (m.detector, m.run, m.target, some m)) ∧
    (∀ b : Bool,
      Potku.Measurement.get_used_settings req (m.set_use_default b) =
        if b then
          (req.default_detector, req.default_run, req.default_target,
            req.default_measurement)
        else
          (m.detector, m.run, m.target, some (m.set_use_default b))) := by
  constructor
  · rfl
  · intro b
    cases b <;> rfl

/-- C7: loading a Measurement whose `.profile` file is missing or
malformed does not fail the load: when the Request stores a default
measurement, every profile/depth/composition parameter falls back to that
default measurement's value, `use_default_profile_settings` is forced to
`True`, and the fallback is logged. -/
theorem c7_profile_fallback (req : Potku.Request) (now : Potku.Val)
    (d : Potku.Measurement) (h : req.default_measurement = some d) :
    Potku.from_file_profile req now none =
      (d.profileFields, true, [Potku.profileReadErrorLog]) := by
  simp [Potku.from_file_profile, h]

/-- Witness for C7 at a concrete Request holding a concrete default
measurement. -/
theorem c7_profile_fallback_witness :
    Potku.exRequest.default_measurement = some Potku.exMeasurement ∧
    Potku.from_file_profile Potku.exRequest (.num 0) none =
      (Potku.exMeasurement.profileFields, true,
        [Potku.profileReadErrorLog]) :=
  ⟨rfl, c7_profile_fallback Potku.exRequest (.num 0) Potku.exMeasurement rfl⟩

/-- C9: `Simulations.add_simulation_file` increments the owning sample's
simulation running counter unconditionally — before the duplicate check
and before the Simulation is constructed — so a call that returns `None`
(duplicate found, or the constructor raised inside the bare `except`)
still consumes the serial number: the counter has increased by one while
the stored simulations are unchanged and nothing was created. -/
theorem c9_add_simulation_file_consumes_serial (s : Potku.SampleSim)
    (name : String) (tab_id : Int) (failure : Potku.SimFailure) :
    ((Potku.add_simulation_file s name tab_id failure).1.running_int_simulation
      = s.running_int_simulation + 1) ∧
    (s.simulations.any (fun kv => kv.2 == some name) = true →
      Potku.add_simulation_file s name tab_id failure =
        (s.increase_running_int_simulation_by_1, none)) ∧
    (failure = .duringConstruction →
      Potku.add_simulation_file s name tab_id failure =
        (s.increase_running_int_simulation_by_1, none)) := by
  refine ⟨?_, ?_, ?_⟩
  · simp only [Potku.add_simulation_file]
    split
    · rfl
    · cases failure <;> rfl
  · intro h
    simp only [Potku.add_simulation_file]
    rw [if_pos]
    exact h
  · intro h
    subst h
    simp only [Potku.add_simulation_file]
    split
    · rfl
    · rfl

/-- Witness for C9: a duplicate name and a failing construction both
return `None`, yet the counter moves from 1 to 2 and the stored
simulations stay unchanged. -/
theorem c9_add_simulation_file_witness :
    (([((1 : Int), some "foo")] : List (Int × Option String)).any
      (fun kv => kv.2 == some "foo") = true) ∧
    Potku.add_simulation_file ⟨"Sample_01-s", 1, [(1, some "foo")]⟩ "foo" 2
        .duringConstruction =
      (Potku.SampleSim.increase_running_int_simulation_by_1
        ⟨"Sample_01-s", 1, [(1, some "foo")]⟩, none) :=
  ⟨by decide,
    (c9_add_simulation_file_consumes_serial
      ⟨"Sample_01-s", 1, [(1, some "foo")]⟩ "foo" 2
      .duringConstruction).2.1 (by decide)⟩

/-- C4 counterexample: with a raw `.asc` array containing the value 70000,
`load_data` does *not* surface the range error to its caller — the
internally raised `ValueError` is caught by the function's own
`except Exception` clause, which logs it, and the call returns normally
(`Except.ok`): `self.data` is left unset, not truncated, but no error
reaches the caller. -/
theorem c4_counterexample_error_not_surfaced :
    Potku.load_data_asc [((70000 : Int), 0)] =
      Except.ok { data := none,
                  logs := [Potku.unexpectedErrorLog
                    (Potku.rangeErrorMsg 70000)] } ∧
    (Potku.load_data_asc [((70000 : Int), 0)]).isOk = true :=
  ⟨rfl, rfl⟩

/-- C4 amended: when the parsed array's maximum exceeds the 16-bit
unsigned range, the `.asc` branch of `load_data` raises a `ValueError`
internally rather than truncating or wrapping, the blanket exception
handler catches and logs it, and the call returns normally with
`self.data` left unset (never a truncated array). -/
theorem c4_load_data_range_error_logged (rows : List (Int × Int))
    (mx : Int) (h1 : Potku.arrayMax rows = some mx)
    (h2 : Potku.uint16Max < mx) :
    Potku.loadDataBody rows = .error (Potku.rangeErrorMsg mx) ∧
    Potku.load_data_asc rows =
      .ok { data := none,
            logs := [Potku.unexpectedErrorLog (Potku.rangeErrorMsg mx)] } := by
  have hb : Potku.loadDataBody rows = .error (Potku.rangeErrorMsg mx) := by
    simp [Potku.loadDataBody, h1, h2]
  exact ⟨hb, by simp [Potku.load_data_asc, hb]⟩

/-- Witness for C4 (amended) at the value 70000 of the spec's example. -/
theorem c4_load_data_range_error_witness :
    Potku.arrayMax [((70000 : Int), 0)] = some 70000 ∧
    Potku.uint16Max < 70000 ∧
    Potku.loadDataBody [((70000 : Int), 0)] =
      .error (Potku.rangeErrorMsg 70000) :=
  ⟨rfl, by decide,
    (c4_load_data_range_error_logged [((70000 : Int), 0)] 70000 rfl
      (by decide)).1⟩

/-- C3: for the spec's square selection and the raw points
`[(5,5), (15,15)]`, the triple list `points_in_selection` is exactly
`[(5, 5, 1)]` (inside point, 1-based event index, original order) — but
the cut file actually persisted receives the raw `np.where` index row
`[0]` instead of the triples: the loop of `save_cuts` builds the triples,
sets them on a first `CutFile`, then rebinds `cut_file` to a second
`CutFile` and saves that one with `points` (the index row).  The code
contradicts the documented cut-file content; the discarded triple
computation shows the second `set_info(selection, points)` is a slip. -/
theorem c3_saved_cut_is_index_row_not_triples :
    Potku.pointsInSelection Potku.exSquareSelection
      [((5 : Int), (5 : Int)), (15, 15)] = [(5, 5, 1)] ∧
    Potku.savedCutForSelection Potku.exSquareSelection
      [((5 : Int), (5 : Int)), (15, 15)] =
      some (Potku.CutData.indices [0]) ∧
    (Potku.save_cuts [Potku.exSquareSelection]
      [((5 : Int), (5 : Int)), (15, 15)] ⟨[], [], true⟩).1.cuts =
      [Potku.CutData.indices [0]] ∧
    Potku.CutData.indices [0] ≠ Potku.CutData.triples [(5, 5, 1)] := by
  refine ⟨by decide, by decide, by decide, by decide⟩

/-- C6: with zero selections, `save_cuts` removes every `.cut` file of the
Cuts and Changes directories and the persisted `.selections` file and
returns 0; with selections present, all previously existing cut files are
removed before the new ones are written, so the resulting Cuts directory
holds exactly the newly written cut files (independent of any stale
files) and the Changes directory is left empty. -/
theorem c6_save_cuts_empty_and_removal (sels : List Potku.Selection)
    (data : List (Int × Int)) (fs : Potku.CutFS) :
    (sels.isEmpty = true →
      Potku.save_cuts sels data fs =
        ({ cuts := [], changes := [], selections_file := false }, some 0)) ∧
    (sels.isEmpty = false →
      Potku.save_cuts sels data fs =
        ({ cuts := sels.filterMap (Potku.savedCutForSelection · data),
           changes := [], selections_file := fs.selections_file }, none)) := by
  constructor <;> intro h <;>
    simp [Potku.save_cuts, Potku.removeOldCutFiles, h]

/-- Witness for C6: a state with stale cut files in both directories and
a `.selections` file, exercised with zero selections and with one
selection. -/
theorem c6_save_cuts_witness :
    Potku.save_cuts ([] : List Potku.Selection) [((5 : Int), (5 : Int))]
        ⟨[Potku.CutData.indices [3]], [Potku.CutData.indices [4]], true⟩ =
      ({ cuts := [], changes := [], selections_file := false }, some 0) ∧
    Potku.save_cuts [Potku.exSquareSelection] [((5 : Int), (5 : Int))]
        ⟨[Potku.CutData.indices [3]], [Potku.CutData.indices [4]], true⟩ =
      ({ cuts := [Potku.CutData.indices [0]], changes := [],
         selections_file := true }, none) :=
  ⟨(c6_save_cuts_empty_and_removal [] [((5 : Int), (5 : Int))]
      ⟨[Potku.CutData.indices [3]], [Potku.CutData.indices [4]], true⟩).1
      rfl,
   ((c6_save_cuts_empty_and_removal [Potku.exSquareSelection]
      [((5 : Int), (5 : Int))]
      ⟨[Potku.CutData.indices [3]], [Potku.CutData.indices [4]], true⟩).2
      rfl).trans (by decide)⟩

/-- After any `generate_tof_in` call, the `tof.in` file holds exactly the
text assembled from the settings of that call (either it already did, or
it was just written). -/
theorem generate_tof_in_writes (nf : Bool) (s : Potku.TofSettings)
    (fs : Potku.TofFS) :
    (Potku.generate_tof_in nf s fs).tof_in = some (Potku.tofInText nf s) := by
  simp only [Potku.generate_tof_in]
  split
  next h => exact h
  next h => rfl

/-- Changing any resolved numeric field changes the assembled `tof.in`
text (the field's rendered value appears verbatim on its line). -/
theorem tofInText_numField_ne (nf : Bool) (s : Potku.TofSettings)
    (f : Potku.NumField) (v : Rat) (hv : v ≠ Potku.numFieldGet s f) :
    Potku.tofInText nf (Potku.numFieldSet s f v) ≠ Potku.tofInText nf s := by
  intro hEq
  apply hv
  cases f <;>
    · simp [Potku.tofInText, Potku.numFieldSet, Potku.numFieldGet] at hEq ⊢
      tauto

/-- C2: calling `generate_tof_in` twice with unchanged resolved settings
leaves the `tof.in` file unchanged and produces no new backup (the second
call finds an identical fingerprint and skips the write); changing any
resolved numeric field makes the next call produce exactly one new `.bak`
backup holding the old text and rewrite `tof.in` with a text whose
fingerprint differs from the backup's. -/
theorem c2_generate_tof_in_idempotent_and_change (nf : Bool)
    (s : Potku.TofSettings) (fs : Potku.TofFS) (f : Potku.NumField)
    (v : Rat) (hv : v ≠ Potku.numFieldGet s f) :
    Potku.generate_tof_in nf s (Potku.generate_tof_in nf s fs) =
      Potku.generate_tof_in nf s fs ∧
    (Potku.generate_tof_in nf (Potku.numFieldSet s f v)
        (Potku.generate_tof_in nf s fs)).baks =
      (Potku.generate_tof_in nf s fs).baks ++ [Potku.tofInText nf s] ∧
    (Potku.generate_tof_in nf (Potku.numFieldSet s f v)
        (Potku.generate_tof_in nf s fs)).tof_in =
      some (Potku.tofInText nf (Potku.numFieldSet s f v)) ∧
    Potku.tofInText nf (Potku.numFieldSet s f v) ≠ Potku.tofInText nf s := by
  have hw := generate_tof_in_writes nf s fs
  have hne := tofInText_numField_ne nf s f v hv
  obtain ⟨fs1, hg⟩ : ∃ fs1, Potku.generate_tof_in nf s fs = fs1 := ⟨_, rfl⟩
  rw [hg] at hw ⊢
  have hcond :
      ¬ (fs1.tof_in =
        some (Potku.tofInText nf (Potku.numFieldSet s f v))) := by
    rw [hw]
    intro hx
    exact hne (Option.some.inj hx).symm
  refine ⟨?_, ?_, generate_tof_in_writes nf (Potku.numFieldSet s f v) _, hne⟩
  · simp only [Potku.generate_tof_in]
    rw [if_pos hw]
  · simp only [Potku.generate_tof_in]
    rw [if_neg hcond]
    simp [hw]

/-- Witness for C2: a concrete settings record, an initially empty
`tof_in` directory and a change of the reference density from 3 to 5. -/
theorem c2_generate_tof_in_witness :
    ((5 : Rat) ≠ Potku.numFieldGet Potku.exTofSettings .referenceDensity) ∧
    (Potku.generate_tof_in false
        (Potku.numFieldSet Potku.exTofSettings .referenceDensity 5)
        (Potku.generate_tof_in false Potku.exTofSettings ⟨none, []⟩)).baks =
      (Potku.generate_tof_in false Potku.exTofSettings ⟨none, []⟩).baks ++
        [Potku.tofInText false Potku.exTofSettings] :=
  ⟨by decide,
    (c2_generate_tof_in_idempotent_and_change false Potku.exTofSettings
      ⟨none, []⟩ .referenceDensity 5 (by decide)).2.1⟩

/-- The overwrite loop of `generate_tof_in` always ends with the
iteration `i = 1`, so its final value is the distance difference of the
foils indexed by `tof_foils[1]` and `tof_foils[0]`. -/
theorem tofLengthLoop_succ (det : Potku.DetectorS) (i : Nat) (x : Rat) :
    Potku.tofLengthLoop det (i + 1) x =
      Potku.foilDistance det 1 - Potku.foilDistance det 0 := by
  induction i generalizing x with
  | zero => rfl
  | succ k ih =>
      rw [Potku.tofLengthLoop]
      exact ih _

/-- C8 counterexample: a detector with three time-of-flight foils at
z-positions 0, 5 and 100 (`tof_foils = [0, 1, 2]`).  The claim says the
written time-of-flight length is the difference of the two *outermost*
tof foils scaled by 1/1000, i.e. (100 − 0)/1000 = 1/10; the code's loop
ends at `i = 1` and writes (5 − 0)/1000 = 1/200 instead. -/
theorem c8_counterexample_three_tof_foils :
    Potku.timeOfFlightLength Potku.exDetectorThreeTof = 1 / 200 ∧
    Potku.timeOfFlightLength Potku.exDetectorThreeTof ≠ (100 - 0) / 1000 := by
  have h2 : Potku.timeOfFlightLength Potku.exDetectorThreeTof =
      (Potku.foilDistance Potku.exDetectorThreeTof 1 -
        Potku.foilDistance Potku.exDetectorThreeTof 0) / 1000 := by
    unfold Potku.timeOfFlightLength
    rw [show Potku.exDetectorThreeTof.tof_foils.length - 1 = 1 + 1 from rfl]
    rw [tofLengthLoop_succ]
  have h3 : Potku.foilDistance Potku.exDetectorThreeTof 1 = 5 := rfl
  have h4 : Potku.foilDistance Potku.exDetectorThreeTof 0 = 0 := rfl
  rw [h2, h3, h4]
  constructor
  · norm_num
  · norm_num

/-- C8 amended: the time-of-flight length written on the `Toflen` line of
the config equals the difference of the z-positions of the foils indexed
by the *first two* entries of `detector.tof_foils` (for a detector with
exactly two tof foils these are the two outermost), scaled by 1/1000;
with fewer than two tof foils it is 0. -/
theorem c8_toflen_first_two_tof_foils (nf : Bool) (s : Potku.TofSettings) :
    (Potku.tofInText nf s).getD 4 ("", []) =
      ("Toflen", [.num (Potku.timeOfFlightLength s.detector)]) ∧
    Potku.timeOfFlightLength s.detector =
      (if 2 ≤ s.detector.tof_foils.length then
        (Potku.foilDistance s.detector 1 - Potku.foilDistance s.detector 0)
          / 1000
      else 0) := by
  refine ⟨rfl, ?_⟩
  unfold Potku.timeOfFlightLength
  rcases hlen : s.detector.tof_foils.length with _ | k
  · norm_num [Potku.tofLengthLoop]
  · cases k with
    | zero => norm_num [Potku.tofLengthLoop]
    | succ n =>
        simp only [Nat.add_sub_cancel]
        rw [tofLengthLoop_succ]
        rw [if_pos (by omega)]

/-- Computing `getLast?` of a cons, with default: the head becomes the new default. -/
theorem getLast?_cons_getD (n r : Int) (xs : List Int) :
    ((n :: xs).getLast?).getD r = (xs.getLast?).getD n := by
  induction xs generalizing n r with
  | nil => rfl
  | cons y ys ih => rw [List.getLast?_cons_cons, ih y r, ih y n]

/-- Characterization of the directory-scanning loop: starting from counter
`r` and accumulated files `fs`, the loop ends with the serial of the last
matching entry (or `r` if none matched) and with the files of all matching
entries appended in order. -/
theorem scan_foldl_char (pre ext : String) (l : List Potku.ChildDir)
    (r : Int) (fs : List String) :
    l.foldl (Potku.scanStep pre ext) (r, fs) =
      ((Potku.lastMatchedSerial pre l).getD r,
        fs ++ Potku.collectedFiles pre ext l) := by
  induction l generalizing r fs with
  | nil => simp [Potku.lastMatchedSerial, Potku.collectedFiles]
  | cons d ds ih =>
      rw [List.foldl_cons]
      cases hm : Potku.matchedSerial pre d with
      | none =>
          rw [show Potku.scanStep pre ext (r, fs) d = (r, fs) from by
            simp [Potku.scanStep, hm]]
          rw [ih]
          simp [Potku.lastMatchedSerial, Potku.collectedFiles,
            List.filterMap_cons, hm]
      | some n =>
          rw [show Potku.scanStep pre ext (r, fs) d =
              (n, fs ++ ((d.files.filter
                (fun f => Potku.isSuffixChars ext.data f.data)).map
                  (fun f => d.dname ++ "/" ++ f))) from by
            simp [Potku.scanStep, hm]]
          rw [ih]
          simp [Potku.lastMatchedSerial, Potku.collectedFiles,
            List.filterMap_cons, hm, getLast?_cons_getD, List.append_assoc]

/-- C5: re-scanning a Sample's directory sorts the child names, skips
(without raising) every entry that does not start with the prefix or
whose fixed-width numeric field fails to parse, leaves the counter at the
serial parsed from the last matching directory (sorted order), and adds
one only when at least one child file was collected; the concrete listing
`{Measurement_01-a, Measurement_03-b, garbage}` (each child holding one
file) yields next serial 4 with `garbage` skipped, and an empty Sample's
counter stays at its initial value.  The same scanner, instantiated with
the simulation prefix and extension, is `get_simulation_files`. -/
theorem c5_scan_sets_serial_from_last_match (running : Int)
    (dirs : List Potku.ChildDir) :
    (Potku.get_measurements_files running dirs =
      ((if (Potku.collectedFiles "Measurement_" ".info"
            (Potku.sortDirs dirs)).isEmpty then
          (Potku.lastMatchedSerial "Measurement_"
            (Potku.sortDirs dirs)).getD running
        else
          (Potku.lastMatchedSerial "Measurement_"
            (Potku.sortDirs dirs)).getD running + 1),
        Potku.collectedFiles "Measurement_" ".info"
          (Potku.sortDirs dirs))) ∧
    (Potku.get_simulation_files running dirs =
      ((if (Potku.collectedFiles "MC_simulation_" ".simulation"
            (Potku.sortDirs dirs)).isEmpty then
          (Potku.lastMatchedSerial "MC_simulation_"
            (Potku.sortDirs dirs)).getD running
        else
          (Potku.lastMatchedSerial "MC_simulation_"
            (Potku.sortDirs dirs)).getD running + 1),
        Potku.collectedFiles "MC_simulation_" ".simulation"
          (Potku.sortDirs dirs))) ∧
    Potku.get_measurements_files running [] = (running, []) ∧
    Potku.get_measurements_files 1
      [⟨"garbage", ["g.info"]⟩, ⟨"Measurement_03-b", ["b.info"]⟩,
       ⟨"Measurement_01-a", ["a.info"]⟩] =
      (4, ["Measurement_01-a/a.info", "Measurement_03-b/b.info"]) := by
  refine ⟨?_, ?_, rfl, by decide⟩
  · unfold Potku.get_measurements_files Potku.scanSampleDir
    rw [scan_foldl_char]
    simp
  · unfold Potku.get_simulation_files Potku.scanSampleDir
    rw [scan_foldl_char]
    simp
